import Mathlib

/-!
Verification of the route and pooling optimization engine of the Pi Rideshare
platform (`ml/algorithms/route_optimization.py`), as a shallow embedding.

Numbers are modelled as rationals.  The haversine distance function and the
two environmental-signal providers (weather, traffic) are opaque collaborators
of the engine, so they are modelled as fields of an `Env` record: the
embedding of every engine function takes the environment explicitly.  A
provider answering `none` models both an unavailable signal and a raised
provider exception (the engine treats the two identically at every call site:
the surrounding code either tests truthiness or catches the exception).
Python exceptions that the engine does *not* catch locally are modelled with
`Except Unit`.  Times are rationals counted in minutes (`datetime` values
become minutes since an arbitrary epoch, so differences and `.hour` behave as
in the source).  Python's `sorted(..., reverse=True)` is a stable descending
sort; it is modelled with `List.insertionSort` of the reflexive descending
relation, which is stable and therefore computes the same list.
-/

namespace PiRideshare

/-- Zone reference data: `self.zones` values `{'lat': .., 'lng': .., 'avg_speed_mph': ..}`. -/
structure ZoneInfo where
  lat : ℚ
  lng : ℚ
  avg_speed_mph : ℚ
deriving DecidableEq

/-- The value the engine reads from a traffic provider answer:
`traffic_data.get('delay_minutes', 0)` (a missing key is the value `0`). -/
structure TrafficData where
  delay_minutes : ℚ
deriving DecidableEq

/-- The value the engine reads from a weather provider answer:
`weather_data.get('condition', 'clear')` before `.lower()`. -/
structure WeatherData where
  condition : String
deriving DecidableEq

/-- The engine's opaque collaborators: `_calculate_distance` (haversine over
floats, with its internal catch-all returning `0.0`) and the two API
providers.  `none` from a provider is a falsy or failed answer. -/
structure Env where
  dist : ℚ → ℚ → ℚ → ℚ → ℚ
  getTrafficData : String → Option TrafficData
  getWeatherData : ℚ → ℚ → Option WeatherData

/-- A zone table: Python's insertion-ordered `dict` as an association list. -/
abbrev ZoneTable := List (String × ZoneInfo)

/-- `RouteWaypoint` dataclass.  Time windows are minutes since the epoch. -/
structure RouteWaypoint where
  id : String
  type : String
  latitude : ℚ
  longitude : ℚ
  passenger_id : String
  time_window_start : ℚ
  time_window_end : ℚ
  service_time_minutes : ℚ := 2
  priority : ℤ := 1
  special_requirements : List String := []
deriving DecidableEq

/-- `OptimizedRoute` dataclass.  `timestamp` is the `datetime.now()` value. -/
structure OptimizedRoute where
  driver_id : String
  waypoints : List RouteWaypoint
  total_distance_miles : ℚ
  total_time_minutes : ℚ
  total_passengers : ℕ
  route_efficiency_score : ℚ
  estimated_earnings : ℚ
  traffic_impact : ℚ
  weather_impact : ℚ
  confidence_score : ℚ
  optimization_strategy : String
  timestamp : ℚ
deriving DecidableEq

/-- `PoolRideMatch` dataclass. -/
structure PoolRideMatch where
  match_id : String
  driver_id : String
  passengers : List String
  pickup_sequence : List RouteWaypoint
  dropoff_sequence : List RouteWaypoint
  shared_distance_miles : ℚ
  individual_savings_percent : ℚ
  total_time_minutes : ℚ
  compatibility_score : ℚ
  reasoning : String
  timestamp : ℚ
deriving DecidableEq

/-- `ETAPrediction` dataclass. -/
structure ETAPrediction where
  destination_lat : ℚ
  destination_lng : ℚ
  estimated_time_minutes : ℚ
  confidence_interval_min : ℚ
  confidence_interval_max : ℚ
  traffic_delay_minutes : ℚ
  weather_delay_minutes : ℚ
  base_time_minutes : ℚ
  confidence_score : ℚ
  factors : List String
  timestamp : ℚ
deriving DecidableEq

/-- A pending ride request, i.e. the loosely-keyed `Dict[str, Any]` the engine
receives.  `none` in a field models a missing key (reading it raises
`KeyError`; `.get` reads fall back to their default instead).
`pickup_time` models `req.get('pickup_time', datetime.now().isoformat())`
followed by `datetime.fromisoformat`:
`none` is an absent key (the default string round-trips to `now`),
`some (.error ())` a present but unparsable string (raises `ValueError`),
`some (.ok t)` a present string parsing to time `t`. -/
structure RideRequest where
  id : Option String
  passenger_id : Option String
  pickup_latitude : Option ℚ
  pickup_longitude : Option ℚ
  pickup_time : Option (Except Unit ℚ)
  priority : Option ℤ
  special_requirements : Option (List String)

/-- Configuration constant `self.pickup_tolerance_minutes = 5`. -/
def pickup_tolerance_minutes : ℚ := 5

/-- Configuration constant `self.max_pool_passengers = 4`. -/
def max_pool_passengers : ℕ := 4

/-- Loop body state of `_classify_location_to_zone`: `closest_zone` together
with `min_distance` (`none` is the initial `float('inf')`). -/
def classifyGo (env : Env) (lat lng : ℚ) :
    String → Option ℚ → ZoneTable → String
  | best, _, [] => best
  | best, bestD, z :: zs =>
    let d := env.dist lat lng z.2.lat z.2.lng
    match bestD with
    | none => classifyGo env lat lng z.1 (some d) zs
    | some m =>
      if d < m then classifyGo env lat lng z.1 (some d) zs
      else classifyGo env lat lng best (some m) zs

/-- `_classify_location_to_zone`: nearest zone by centroid distance, strict
improvement only (the first minimum encountered wins), default `'residential'`. -/
def classify_location_to_zone (env : Env) (zones : ZoneTable) (lat lng : ℚ) : String :=
  classifyGo env lat lng "residential" none zones

/-- Modelled from the spec: `classifyZone` as §4.1 words it, "the zone whose
centroid is nearest ... ties broken by iteration order of the zone table".
Returns the first table entry achieving the minimal centroid distance,
or `none` for an empty table.  Used only to compare against
`classify_location_to_zone`. -/
def firstNearestZone (env : Env) (lat lng : ℚ) :
    ZoneTable → Option (String × ZoneInfo)
  | [] => none
  | z :: zs =>
    match firstNearestZone env lat lng zs with
    | none => some z
    | some w =>
      if env.dist lat lng z.2.lat z.2.lng ≤ env.dist lat lng w.2.lat w.2.lng
      then some z else some w

/-- `self.zones.get(zone, {}).get('avg_speed_mph', 30)`. -/
def zoneSpeed (zones : ZoneTable) (name : String) : ℚ :=
  ((zones.lookup name).map ZoneInfo.avg_speed_mph).getD 30

/-- `_calculate_base_travel_time`.  A zero average speed raises
`ZeroDivisionError`, caught by the function's own handler which returns
`distance_miles * 2`; otherwise `max(1.0, distance / speed * 60)`. -/
def calculate_base_travel_time (env : Env) (zones : ZoneTable)
    (from_lat from_lng to_lat to_lng distance_miles : ℚ) : ℚ :=
  let from_zone := classify_location_to_zone env zones from_lat from_lng
  let to_zone := classify_location_to_zone env zones to_lat to_lng
  let avg_speed := (zoneSpeed zones from_zone + zoneSpeed zones to_zone) / 2
  if avg_speed = 0 then distance_miles * 2
  else max 1 (distance_miles / avg_speed * 60)

/-- The `weather_delays` table of `_get_weather_delay`. -/
def weather_delays : List (String × ℚ) :=
  [("clear", 0), ("sunny", 0), ("partly_cloudy", 0),
   ("cloudy", 0.5), ("overcast", 1), ("mist", 2),
   ("light_rain", 3), ("rain", 5), ("heavy_rain", 8),
   ("snow", 10), ("storm", 15)]

/-- `_get_weather_delay`: weather at the route midpoint; no data (or a
provider failure) gives `0.0`; unknown conditions give `0`. -/
def get_weather_delay (env : Env) (from_lat from_lng to_lat to_lng : ℚ) : ℚ :=
  let mid_lat := (from_lat + to_lat) / 2
  let mid_lng := (from_lng + to_lng) / 2
  match env.getWeatherData mid_lat mid_lng with
  | none => 0
  | some wd => ((weather_delays.lookup wd.condition.toLower).getD 0)

/-- `_get_traffic_delay`: delay of the origin zone scaled by time of day
(rush hours x1.5, daytime x1.0, off-peak x0.5); no data (or a provider
failure) gives `0.0`.  Only the departure hour is read from the time. -/
def get_traffic_delay (env : Env) (zones : ZoneTable)
    (from_lat from_lng to_lat to_lng : ℚ) (departure_hour : ℕ) : ℚ :=
  let from_zone := classify_location_to_zone env zones from_lat from_lng
  match env.getTrafficData from_zone with
  | none => 0
  | some td =>
    let delay_multiplier : ℚ :=
      if ([7, 8, 9, 17, 18, 19] : List ℕ).contains departure_hour then 1.5
      else if ([10, 11, 12, 13, 14, 15, 16] : List ℕ).contains departure_hour then 1
      else 0.5
    td.delay_minutes * delay_multiplier

/-- `_calculate_eta_confidence` (its body is pure, so its catch-all never
fires): `max(0.5, 1 - d/20)` minus the two capped penalties, clamped to
`[0.3, 0.95]`. -/
def calculate_eta_confidence (distance_miles traffic_delay weather_delay : ℚ) : ℚ :=
  let base_confidence := max 0.5 (1 - distance_miles / 20)
  let traffic_penalty := min 0.3 (traffic_delay / 20)
  let weather_penalty := min 0.2 (weather_delay / 10)
  max 0.3 (min 0.95 (base_confidence - traffic_penalty - weather_penalty))

/-- Modelled from the spec: the ETA confidence formula exactly as the claim
words it, `clip(1 - distance/20, 0.3, 0.95)` reduced by the two capped
penalties, floored at 0.3.  Used only to compare against
`calculate_eta_confidence`. -/
def etaConfidenceClaim (distance_miles traffic_delay weather_delay : ℚ) : ℚ :=
  max 0.3 (max 0.3 (min 0.95 (1 - distance_miles / 20))
    - min 0.3 (traffic_delay / 20) - min 0.2 (weather_delay / 10))

/-- `predict_eta`, normal path.  Every helper it calls catches its own
failures, so the body is total; `departure_hour` is `departure_time.hour` and
`now` the `datetime.now()` timestamp.  The numeric interpolations inside the
factor strings of the source are elided. -/
def predict_eta (env : Env) (zones : ZoneTable)
    (from_lat from_lng to_lat to_lng : ℚ) (departure_hour : ℕ) (now : ℚ) :
    ETAPrediction :=
  let distance_miles := env.dist from_lat from_lng to_lat to_lng
  let base_time :=
    calculate_base_travel_time env zones from_lat from_lng to_lat to_lng distance_miles
  let traffic_delay :=
    get_traffic_delay env zones from_lat from_lng to_lat to_lng departure_hour
  let weather_delay := get_weather_delay env from_lat from_lng to_lat to_lng
  let estimated_time := base_time + traffic_delay + weather_delay
  let confidence_range := estimated_time * 0.2
  let confidence_min := max (base_time * 0.5) (estimated_time - confidence_range)
  let confidence_max := estimated_time + confidence_range
  let factors :=
    (if 2 < traffic_delay then ["Traffic delay"] else []) ++
    (if 1 < weather_delay then ["Weather delay"] else []) ++
    (if 10 < distance_miles then ["Long distance trip"] else [])
  { destination_lat := to_lat
    destination_lng := to_lng
    estimated_time_minutes := estimated_time
    confidence_interval_min := confidence_min
    confidence_interval_max := confidence_max
    traffic_delay_minutes := traffic_delay
    weather_delay_minutes := weather_delay
    base_time_minutes := base_time
    confidence_score := calculate_eta_confidence distance_miles traffic_delay weather_delay
    factors := factors
    timestamp := now }

/-- `_create_fallback_eta`: `distance * 2.5` minutes, interval
`[0.8x, 1.5x]`, confidence `0.5`. -/
def create_fallback_eta (env : Env) (from_lat from_lng to_lat to_lng now : ℚ) :
    ETAPrediction :=
  let distance := env.dist from_lat from_lng to_lat to_lng
  let estimated_time := distance * 2.5
  { destination_lat := to_lat
    destination_lng := to_lng
    estimated_time_minutes := estimated_time
    confidence_interval_min := estimated_time * 0.8
    confidence_interval_max := estimated_time * 1.5
    traffic_delay_minutes := 0
    weather_delay_minutes := 0
    base_time_minutes := estimated_time
    confidence_score := 0.5
    factors := ["Fallback estimation"]
    timestamp := now }

/-- Reading a required key of a request dict: a missing key raises `KeyError`. -/
def reqField {α : Type} : Option α → Except Unit α
  | none => .error ()
  | some a => .ok a

/-- The body of the `_create_waypoints_from_requests` loop for one request:
parse `pickup_time` (default `now`), then build the pickup waypoint from the
required keys, window `pickup_time ± pickup_tolerance_minutes`.  All failures
carry the same `Unit` payload, so requiring every read at once is
extensionally the same as raising at the first failing read. -/
def waypointOfRequest (now : ℚ) (req : RideRequest) : Except Unit RouteWaypoint :=
  match (match req.pickup_time with | none => Except.ok now | some parsed => parsed),
      req.id, req.pickup_latitude, req.pickup_longitude, req.passenger_id with
  | .ok pickup_time, some rid, some lat, some lng, some pid =>
    .ok { id := rid ++ "_pickup"
          type := "pickup"
          latitude := lat
          longitude := lng
          passenger_id := pid
          time_window_start := pickup_time - pickup_tolerance_minutes
          time_window_end := pickup_time + pickup_tolerance_minutes
          service_time_minutes := 2
          priority := req.priority.getD 1
          special_requirements := req.special_requirements.getD [] }
  | _, _, _, _, _ => .error ()

/-- `_create_waypoints_from_requests`: one pickup waypoint per request, in
input order; a failing request aborts the whole call. -/
def create_waypoints_from_requests (now : ℚ) :
    List RideRequest → Except Unit (List RouteWaypoint)
  | [] => .ok []
  | req :: rest =>
    match waypointOfRequest now req, create_waypoints_from_requests now rest with
    | .ok w, .ok ws => .ok (w :: ws)
    | .ok _, .error e => .error e
    | .error e, _ => .error e

/-- The driver's current position as a starting waypoint
(`optimize_pickup_route` lines building `driver_waypoint`). -/
def driverStartWaypoint (driver_lat driver_lng now : ℚ) : RouteWaypoint :=
  { id := "driver_start"
    type := "start"
    latitude := driver_lat
    longitude := driver_lng
    passenger_id := "driver"
    time_window_start := now
    time_window_end := now + 60
    service_time_minutes := 0 }

/-- `_calculate_route_distance`: sum of consecutive-pair distances. -/
def calculate_route_distance (env : Env) : List RouteWaypoint → ℚ
  | a :: b :: rest =>
    env.dist a.latitude a.longitude b.latitude b.longitude
      + calculate_route_distance env (b :: rest)
  | _ => 0

/-- The per-segment part of `_calculate_route_time`: travel time of each
consecutive pair plus the service time of the segment's first waypoint. -/
def segmentTimes (env : Env) (zones : ZoneTable) : List RouteWaypoint → ℚ
  | a :: b :: rest =>
    calculate_base_travel_time env zones a.latitude a.longitude b.latitude b.longitude
        (env.dist a.latitude a.longitude b.latitude b.longitude)
      + a.service_time_minutes
      + segmentTimes env zones (b :: rest)
  | _ => 0

/-- `_calculate_route_time`: segment times plus the service time of the final
waypoint when the list is non-empty. -/
def calculate_route_time (env : Env) (zones : ZoneTable) (waypoints : List RouteWaypoint) : ℚ :=
  segmentTimes env zones waypoints
    + (match waypoints.getLast? with
       | some w => w.service_time_minutes
       | none => 0)

/-- The traffic multiplier `_calculate_route_traffic_impact` derives for one
waypoint, `1 + delay/30`; `none` when the zone has no (or a failing) signal. -/
def trafficImpactOfWaypoint (env : Env) (zones : ZoneTable) (w : RouteWaypoint) : Option ℚ :=
  (env.getTrafficData (classify_location_to_zone env zones w.latitude w.longitude)).map
    (fun td => 1 + td.delay_minutes / 30)

/-- The `total_impact`/`count` accumulation loop of
`_calculate_route_traffic_impact`; a waypoint without signal is not counted. -/
def trafficImpactGo (env : Env) (zones : ZoneTable) : ℚ → ℕ → List RouteWaypoint → ℚ
  | total, count, [] => if 0 < count then total / count else 1
  | total, count, w :: ws =>
    match trafficImpactOfWaypoint env zones w with
    | some impact => trafficImpactGo env zones (total + impact) (count + 1) ws
    | none => trafficImpactGo env zones total count ws

/-- `_calculate_route_traffic_impact`. -/
def calculate_route_traffic_impact (env : Env) (zones : ZoneTable)
    (waypoints : List RouteWaypoint) : ℚ :=
  if waypoints = [] then 1 else trafficImpactGo env zones 0 0 waypoints

/-- The `weather_impacts` table of `_calculate_route_weather_impact`. -/
def weather_impacts : List (String × ℚ) :=
  [("clear", 1), ("sunny", 1), ("partly_cloudy", 1.05),
   ("cloudy", 1.1), ("overcast", 1.15), ("mist", 1.2),
   ("light_rain", 1.3), ("rain", 1.5), ("heavy_rain", 1.8),
   ("snow", 2), ("storm", 2.5)]

/-- The weather multiplier `_calculate_route_weather_impact` derives for one
waypoint; an unknown condition string maps to `1.0`, a missing (or failing)
signal to `none`. -/
def weatherImpactOfWaypoint (env : Env) (w : RouteWaypoint) : Option ℚ :=
  (env.getWeatherData w.latitude w.longitude).map
    (fun wd => (weather_impacts.lookup wd.condition.toLower).getD 1)

/-- The accumulation loop of `_calculate_route_weather_impact`; a waypoint
without signal is not counted. -/
def weatherImpactGo (env : Env) : ℚ → ℕ → List RouteWaypoint → ℚ
  | total, count, [] => if 0 < count then total / count else 1
  | total, count, w :: ws =>
    match weatherImpactOfWaypoint env w with
    | some impact => weatherImpactGo env (total + impact) (count + 1) ws
    | none => weatherImpactGo env total count ws

/-- `_calculate_route_weather_impact`. -/
def calculate_route_weather_impact (env : Env) (waypoints : List RouteWaypoint) : ℚ :=
  if waypoints = [] then 1 else weatherImpactGo env 0 0 waypoints

/-- Modelled from the spec: route-level traffic impact as the claim words it,
the mean over all waypoints of the per-waypoint multiplier with a waypoint
lacking a signal contributing the default `1.0`.  Used only to compare
against `calculate_route_traffic_impact`. -/
def routeTrafficImpactClaim (env : Env) (zones : ZoneTable)
    (waypoints : List RouteWaypoint) : ℚ :=
  if waypoints = [] then 1
  else (waypoints.map (fun w => (trafficImpactOfWaypoint env zones w).getD 1)).sum
         / waypoints.length

/-- The `ideal_distance` loop of `_calculate_route_efficiency`: each
consecutive pair contributes 80% of its distance, segments starting at the
`'start'` waypoint are skipped. -/
def idealDistanceGo (env : Env) : List RouteWaypoint → ℚ
  | a :: b :: rest =>
    (if a.type == "start" then 0
     else env.dist a.latitude a.longitude b.latitude b.longitude * 0.8)
      + idealDistanceGo env (b :: rest)
  | _ => 0

/-- `_calculate_route_efficiency` (its body is total, so its catch-all never
fires). -/
def calculate_route_efficiency (env : Env) (waypoints : List RouteWaypoint)
    (distance time : ℚ) : ℚ :=
  if waypoints = [] ∨ distance ≤ 0 ∨ time ≤ 0 then 0
  else
    let num_stops :=
      (waypoints.filter (fun w => w.type == "pickup" || w.type == "dropoff")).length
    if num_stops = 0 then 1
    else
      let ideal_distance := idealDistanceGo env waypoints
      let distance_efficiency := if 0 < distance then ideal_distance / distance else 0
      let ideal_time := ideal_distance * 2
      let time_efficiency := if 0 < time then ideal_time / time else 0
      max 0 (min 1 (distance_efficiency * 0.6 + time_efficiency * 0.4))

/-- Python's banker's rounding (`round` ties to even) on rationals. -/
def roundHalfEven (q : ℚ) : ℤ :=
  let f := ⌊q⌋
  let r := q - f
  if r < 1 / 2 then f
  else if 1 / 2 < r then f + 1
  else if f % 2 = 0 then f else f + 1

/-- `round(x, 2)`. -/
def round2 (q : ℚ) : ℚ := (roundHalfEven (q * 100) : ℚ) / 100

/-- `_estimate_route_earnings` (total body, catch-all never fires). -/
def estimate_route_earnings (waypoints : List RouteWaypoint) (distance : ℚ) : ℚ :=
  let pickups := (waypoints.filter (fun w => w.type == "pickup")).length
  if pickups = 0 then 0
  else round2 (pickups * (8 + distance * 1.2 + distance * 0.5))

/-- The `time_window_penalty` loop of `_calculate_route_confidence`: `0.05`
per pickup/dropoff waypoint whose window is narrower than 10 minutes. -/
def timeWindowPenaltyGo : ℚ → List RouteWaypoint → ℚ
  | acc, [] => acc
  | acc, w :: ws =>
    if (w.type == "pickup" || w.type == "dropoff")
        && decide (w.time_window_end - w.time_window_start < 10)
    then timeWindowPenaltyGo (acc + 0.05) ws
    else timeWindowPenaltyGo acc ws

/-- `_calculate_route_confidence` (total body, catch-all never fires):
`0.8` minus the capped complexity penalty `min(0.3, (N-1)*0.1)` minus the
time-window penalty, clamped to `[0.3, 0.95]`. -/
def calculate_route_confidence (waypoints : List RouteWaypoint) (num_requests : ℕ) : ℚ :=
  let complexity_penalty := min 0.3 (((num_requests : ℚ) - 1) * 0.1)
  let time_window_penalty := timeWindowPenaltyGo 0 waypoints
  max 0.3 (min 0.95 (0.8 - complexity_penalty - time_window_penalty))

/-- Modelled from the spec: the route confidence formula exactly as the claim
words it, `0.8 - 0.1*(N-1) - 0.05` per tight-window pickup/dropoff waypoint,
clipped to `[0.3, 0.95]` (no cap on the complexity term).  Used only to
compare against `calculate_route_confidence`. -/
def routeConfidenceClaim (waypoints : List RouteWaypoint) (num_requests : ℕ) : ℚ :=
  let tight := (waypoints.filter (fun w =>
    (w.type == "pickup" || w.type == "dropoff")
      && decide (w.time_window_end - w.time_window_start < 10))).length
  max 0.3 (min 0.95 (0.8 - ((num_requests : ℚ) - 1) * 0.1 - 0.05 * tight))

/-- The inner scan of the nearest-neighbor loops (`_optimize_large_route` and
`min(remaining, key=...)` in `_nearest_neighbor_sequence`): the first waypoint
at strictly minimal distance from the current point wins. -/
def findNearestGo (env : Env) (cur : RouteWaypoint) :
    RouteWaypoint → List RouteWaypoint → RouteWaypoint
  | best, [] => best
  | best, w :: ws =>
    if env.dist cur.latitude cur.longitude w.latitude w.longitude
        < env.dist cur.latitude cur.longitude best.latitude best.longitude
    then findNearestGo env cur w ws
    else findNearestGo env cur best ws

/-- The greedy visiting loop shared by `_optimize_large_route` and
`_nearest_neighbor_sequence`: repeatedly append the nearest unvisited waypoint
and remove it from the remaining set.  The fuel argument is the number of
remaining waypoints (the loop runs exactly that many times). -/
def nnGo (env : Env) : ℕ → RouteWaypoint → List RouteWaypoint → List RouteWaypoint
  | 0, _, _ => []
  | _, _, [] => []
  | fuel + 1, cur, w :: ws =>
    let nearest := findNearestGo env cur w ws
    nearest :: nnGo env fuel nearest ((w :: ws).erase nearest)

/-- `_optimize_large_route`: greedy nearest-neighbor from the start point. -/
def optimize_large_route (env : Env) (start_point : RouteWaypoint)
    (waypoints : List RouteWaypoint) : List RouteWaypoint :=
  start_point :: nnGo env waypoints.length start_point waypoints

/-- `_nearest_neighbor_sequence`: greedy nearest-neighbor from the first
waypoint of the list. -/
def nearest_neighbor_sequence (env : Env) : List RouteWaypoint → List RouteWaypoint
  | [] => []
  | w :: ws => w :: nnGo env ws.length w ws

/-- The permutation-loop body of `_optimize_small_route`: keep the strictly
better sequence (the first optimum in enumeration order wins). -/
def smallRouteStep (env : Env) (zones : ZoneTable) (start_point : RouteWaypoint)
    (acc : Option (List RouteWaypoint × ℚ)) (perm : List RouteWaypoint) :
    Option (List RouteWaypoint × ℚ) :=
  let sequence := start_point :: perm
  let total_time := calculate_route_time env zones sequence
  match acc with
  | none => some (sequence, total_time)
  | some b => if total_time < b.2 then some (sequence, total_time) else acc

/-- `_optimize_small_route`: try every permutation, keep the strictly best
total time; the `or` fallback returns the input order.  The enumeration order
of `List.permutations` differs from `itertools.permutations`, which can only
affect which of several time-equal optima is kept. -/
def optimize_small_route (env : Env) (zones : ZoneTable) (start_point : RouteWaypoint)
    (waypoints : List RouteWaypoint) : List RouteWaypoint :=
  match waypoints.permutations.foldl (smallRouteStep env zones start_point) none with
  | some b => b.1
  | none => start_point :: waypoints

/-- The tiering of the sequencing step of `optimize_pickup_route`: direct
route for one waypoint, exhaustive permutation search up to three, greedy
nearest-neighbor beyond, paired with the strategy tag the route reports. -/
def sequencedRoute (env : Env) (zones : ZoneTable) (driver_waypoint : RouteWaypoint)
    (waypoints : List RouteWaypoint) : List RouteWaypoint × String :=
  if waypoints.length = 1 then (driver_waypoint :: waypoints, "direct_pickup")
  else if waypoints.length ≤ 3 then
    (optimize_small_route env zones driver_waypoint waypoints, "exhaustive_search")
  else
    (optimize_large_route env driver_waypoint waypoints, "nearest_neighbor_heuristic")

/-- The `try` body of `optimize_pickup_route`.  Every helper catches its own
failures; the only operation whose exceptions escape to the function's
`except` handler is `_create_waypoints_from_requests`. -/
def optimizePickupRouteCore (env : Env) (zones : ZoneTable) (driver_id : String)
    (driver_lat driver_lng : ℚ) (pending_requests : List RideRequest) (now : ℚ) :
    Except Unit OptimizedRoute :=
  if pending_requests.isEmpty then
    .ok { driver_id := driver_id, waypoints := [], total_distance_miles := 0,
          total_time_minutes := 0, total_passengers := 0,
          route_efficiency_score := 1, estimated_earnings := 0,
          traffic_impact := 1, weather_impact := 1, confidence_score := 1,
          optimization_strategy := "no_requests", timestamp := now }
  else
    match create_waypoints_from_requests now pending_requests with
    | .error e => .error e
    | .ok waypoints =>
      let driver_waypoint := driverStartWaypoint driver_lat driver_lng now
      let seq_strategy := sequencedRoute env zones driver_waypoint waypoints
      let optimized_sequence := seq_strategy.1
      let total_distance := calculate_route_distance env optimized_sequence
      let total_time := calculate_route_time env zones optimized_sequence
      let traffic_impact := calculate_route_traffic_impact env zones optimized_sequence
      let weather_impact := calculate_route_weather_impact env optimized_sequence
      let adjusted_time := total_time * traffic_impact * weather_impact
      .ok { driver_id := driver_id
            waypoints := optimized_sequence.drop 1
            total_distance_miles := total_distance
            total_time_minutes := adjusted_time
            total_passengers := pending_requests.length
            route_efficiency_score :=
              calculate_route_efficiency env optimized_sequence total_distance adjusted_time
            estimated_earnings := estimate_route_earnings optimized_sequence total_distance
            traffic_impact := traffic_impact
            weather_impact := weather_impact
            confidence_score := calculate_route_confidence optimized_sequence pending_requests.length
            optimization_strategy := seq_strategy.2
            timestamp := now }

/-- `_create_fallback_route`: input-order waypoints with `distance * 2.5`
minutes, efficiency `0.6`, confidence `0.5`, strategy `'fallback'`; when even
the waypoint conversion fails, the empty emergency route with confidence
`0.3` and strategy `'emergency_fallback'`. -/
def create_fallback_route (env : Env) (driver_id : String)
    (requests : List RideRequest) (now : ℚ) : OptimizedRoute :=
  match create_waypoints_from_requests now requests with
  | .ok waypoints =>
    let total_distance :=
      if 1 < waypoints.length then calculate_route_distance env waypoints else 0
    { driver_id := driver_id, waypoints := waypoints,
      total_distance_miles := total_distance,
      total_time_minutes := total_distance * 2.5,
      total_passengers := requests.length,
      route_efficiency_score := 0.6,
      estimated_earnings := (requests.length : ℚ) * 12,
      traffic_impact := 1.2, weather_impact := 1.1, confidence_score := 0.5,
      optimization_strategy := "fallback", timestamp := now }
  | .error _ =>
    { driver_id := driver_id, waypoints := [], total_distance_miles := 0,
      total_time_minutes := 0, total_passengers := 0, route_efficiency_score := 0,
      estimated_earnings := 0, traffic_impact := 1, weather_impact := 1,
      confidence_score := 0.3, optimization_strategy := "emergency_fallback",
      timestamp := now }

/-- `optimize_pickup_route`: the `try` body with its `except` handler.  The
result type shows that the caller never receives an exception. -/
def optimize_pickup_route (env : Env) (zones : ZoneTable) (driver_id : String)
    (driver_lat driver_lng : ℚ) (pending_requests : List RideRequest) (now : ℚ) :
    OptimizedRoute :=
  match optimizePickupRouteCore env zones driver_id driver_lat driver_lng
      pending_requests now with
  | .ok route => route
  | .error _ => create_fallback_route env driver_id pending_requests now

/-- Stable insertion of one element: `x` goes before the first `y` with
`le x y`. -/
def insertSortedBy {α : Type} (le : α → α → Bool) (x : α) : List α → List α
  | [] => [x]
  | y :: ys => if le x y then x :: y :: ys else y :: insertSortedBy le x ys

/-- Stable insertion sort.  For a reflexive-on-ties `le` this computes the
same list as Python's stable `sorted`: elements comparing equal keep their
input order. -/
def stableSortBy {α : Type} (le : α → α → Bool) : List α → List α
  | [] => []
  | x :: xs => insertSortedBy le x (stableSortBy le xs)

/-- The `priority_score` closure of `_prioritize_waypoints`:
`priority * 10` minus the hours until the window deadline. -/
def priorityScore (now : ℚ) (w : RouteWaypoint) : ℚ :=
  (w.priority : ℚ) * 10 - (w.time_window_end - now) / 60

/-- `_prioritize_waypoints`: stable sort by descending `priority_score`. -/
def prioritize_waypoints (now : ℚ) (waypoints : List RouteWaypoint) :
    List RouteWaypoint :=
  stableSortBy (fun a b => decide (priorityScore now b ≤ priorityScore now a)) waypoints

/-- `_validate_route_constraints`: when the pickups exceed capacity, keep the
`capacity` highest by raw `priority` (stable descending sort) and drop the
other pickup waypoints from the sequence; membership in the kept list is the
dataclass field-wise equality of `w in keep_pickups`. -/
def validate_route_constraints (waypoints : List RouteWaypoint) (capacity : ℕ) :
    List RouteWaypoint :=
  let pickups := waypoints.filter (fun w => w.type == "pickup")
  if pickups.length ≤ capacity then waypoints
  else
    let sorted_pickups := stableSortBy (fun a b => decide (b.priority ≤ a.priority)) pickups
    let keep_pickups := sorted_pickups.take capacity
    waypoints.filter (fun w => w.type != "pickup" || keep_pickups.contains w)

/-- `_tsp_optimization`: delegates to the nearest-neighbor sequencer. -/
def tsp_optimization (env : Env) (waypoints : List RouteWaypoint) : List RouteWaypoint :=
  nearest_neighbor_sequence env waypoints

/-- `_heuristic_optimization`: delegates to the nearest-neighbor sequencer. -/
def heuristic_optimization (env : Env) (waypoints : List RouteWaypoint) : List RouteWaypoint :=
  nearest_neighbor_sequence env waypoints

/-- `optimize_multi_stop_route` (its body is total, so the `except` branch
never runs).  The source reassigns `pickups` to the prioritized,
capacity-trimmed list but never reads that variable again; the binding is kept
here, unused, to mirror the source. -/
def optimize_multi_stop_route (env : Env) (now : ℚ)
    (waypoints : List RouteWaypoint) (vehicle_capacity : ℕ) : List RouteWaypoint :=
  if waypoints.length ≤ 1 then waypoints
  else
    let pickups := waypoints.filter (fun w => w.type == "pickup")
    let _trimmed_pickups :=
      if vehicle_capacity < pickups.length
      then (prioritize_waypoints now pickups).take vehicle_capacity
      else pickups
    let optimized_sequence :=
      if waypoints.length ≤ 8 then tsp_optimization env waypoints
      else heuristic_optimization env waypoints
    validate_route_constraints optimized_sequence vehicle_capacity

/-- `_evaluate_pool_compatibility` (placeholder scoring in the source):
compatibility `0.8` for two or more passengers; reading a missing
`passenger_id` key raises. -/
def evaluate_pool_compatibility (now : ℚ) (passengers : List RideRequest) :
    Except Unit (Option PoolRideMatch) :=
  if 2 ≤ passengers.length then do
    let pids ← passengers.mapM (fun p => reqField p.passenger_id)
    return some
      { match_id := "pool_" ++ toString now
        driver_id := "TBD"
        passengers := pids
        pickup_sequence := []
        dropoff_sequence := []
        shared_distance_miles := 5
        individual_savings_percent := 25
        total_time_minutes := 20
        compatibility_score := 0.8
        reasoning := "High route overlap and compatible time windows"
        timestamp := now }
  else return none

/-- `_generate_passenger_combinations`: all size-`pool_size` combinations,
each in input order (`itertools.combinations`). -/
def generate_passenger_combinations (requests : List RideRequest) (pool_size : ℕ) :
    List (List RideRequest) :=
  List.sublistsLen pool_size requests

/-- The pool sizes enumerated by `find_pool_ride_matches`:
`range(2, min(self.max_pool_passengers + 1, len(requests) + 1))`. -/
def poolSizes (num_requests : ℕ) : List ℕ :=
  List.range' 2 (min max_pool_passengers num_requests - 1)

/-- The combination-enumeration and scoring part of the `try` body of
`find_pool_ride_matches`: evaluate every combination of every admissible pool
size (the first raising evaluation aborts the whole call) and keep the
matches scoring at least `0.6`. -/
def poolMatchesCore (now : ℚ) (pending_requests : List RideRequest) :
    Except Unit (List PoolRideMatch) := do
  let combos := (poolSizes pending_requests.length).flatMap
    (fun s => generate_passenger_combinations pending_requests s)
  let evaluated ← combos.mapM (evaluate_pool_compatibility now)
  return (evaluated.filterMap id).filter
    (fun m => decide ((0.6 : ℚ) ≤ m.compatibility_score))

/-- `find_pool_ride_matches`: fewer than two requests give `[]`; otherwise the
kept matches sorted by descending compatibility (stable) and truncated to
`max_matches`; any exception gives `[]`. -/
def find_pool_ride_matches (now : ℚ) (pending_requests : List RideRequest)
    (max_matches : ℕ) : List PoolRideMatch :=
  if pending_requests.length < 2 then []
  else
    match poolMatchesCore now pending_requests with
    | .ok pool_matches =>
      (stableSortBy
        (fun a b => decide (b.compatibility_score ≤ a.compatibility_score))
        pool_matches).take max_matches
    | .error _ => []

/-- Well-formedness of a returned route, the shape every path of
`optimize_pickup_route` guarantees: confidence in `[0.3, 1]` and efficiency
in `[0, 1]`. -/
def WellFormedRoute (r : OptimizedRoute) : Prop :=
  0.3 ≤ r.confidence_score ∧ r.confidence_score ≤ 1 ∧
    0 ≤ r.route_efficiency_score ∧ r.route_efficiency_score ≤ 1

/-- `clip(x, lo, hi)` as the spec words it. -/
def clip (x lo hi : ℚ) : ℚ := max lo (min hi x)

/-! ### Concrete instances

Closed inputs used by counterexamples and witnesses.  The distance field of
an `Env` may be any function (the engine treats `_calculate_distance` as a
black box); squared euclidean distance keeps the arithmetic exact. -/

/-- A concrete distance function for test environments. -/
def sqDist (a b c d : ℚ) : ℚ := (a - c) * (a - c) + (b - d) * (b - d)

/-- An environment with no environmental signals at all. -/
def envPlain : Env :=
  { dist := sqDist, getTrafficData := fun _ => none, getWeatherData := fun _ _ => none }

/-- An environment whose providers always answer, with nonnegative delay. -/
def envPos : Env :=
  { dist := sqDist
    getTrafficData := fun _ => some { delay_minutes := 2 }
    getWeatherData := fun _ _ => some { condition := "clear" } }

/-- An environment where only zone `"za"` has a traffic signal (30 delay
minutes, multiplier 2.0). -/
def envTwoZones : Env :=
  { dist := sqDist
    getTrafficData := fun z => if z == "za" then some { delay_minutes := 30 } else none
    getWeatherData := fun _ _ => none }

/-- A one-zone table. -/
def zonesOne : ZoneTable := [("za", { lat := 0, lng := 0, avg_speed_mph := 30 })]

/-- A two-zone table with distinct centroids. -/
def zonesTwo : ZoneTable :=
  [("za", { lat := 0, lng := 0, avg_speed_mph := 25 }),
   ("zb", { lat := 10, lng := 10, avg_speed_mph := 35 })]

/-- A pickup waypoint at the `"za"` centroid. -/
def wpNearA : RouteWaypoint :=
  { id := "w1", type := "pickup", latitude := 0, longitude := 0,
    passenger_id := "p1", time_window_start := 0, time_window_end := 10 }

/-- A pickup waypoint at the `"zb"` centroid. -/
def wpNearB : RouteWaypoint :=
  { id := "w2", type := "pickup", latitude := 10, longitude := 10,
    passenger_id := "p2", time_window_start := 0, time_window_end := 10 }

/-- A priority-2 pickup whose deadline is 100 hours away: raw priority says
keep it, the `priority_score` formula (`20 - 100 = -80`) says drop it. -/
def wpHighPrioFarDeadline : RouteWaypoint :=
  { id := "A", type := "pickup", latitude := 0, longitude := 0,
    passenger_id := "pa", time_window_start := 0, time_window_end := 6000,
    priority := 2 }

/-- A priority-1 pickup whose deadline is now: raw priority says drop it, the
`priority_score` formula (`10 - 0 = 10`) says keep it. -/
def wpLowPrioUrgent : RouteWaypoint :=
  { id := "B", type := "pickup", latitude := 1, longitude := 1,
    passenger_id := "pb", time_window_start := 0, time_window_end := 0,
    priority := 1 }

/-- A fully-populated ride request. -/
def reqGoodA : RideRequest :=
  { id := some "r1", passenger_id := some "p1", pickup_latitude := some 3,
    pickup_longitude := some 4, pickup_time := some (.ok 100),
    priority := some 1, special_requirements := some [] }

/-- A second fully-populated ride request. -/
def reqGoodB : RideRequest :=
  { id := some "r2", passenger_id := some "p2", pickup_latitude := some 6,
    pickup_longitude := some 8, pickup_time := some (.ok 100),
    priority := some 2, special_requirements := some [] }

/-- A request dict with every key missing: reading it raises `KeyError`. -/
def reqBad : RideRequest :=
  { id := none, passenger_id := none, pickup_latitude := none,
    pickup_longitude := none, pickup_time := none, priority := none,
    special_requirements := none }

/-! ### Helper lemmas -/

theorem insertSortedBy_perm {α : Type} (le : α → α → Bool) (x : α) :
    ∀ l : List α, (insertSortedBy le x l).Perm (x :: l)
  | [] => List.Perm.refl _
  | y :: ys => by
    by_cases h : le x y
    · simp [insertSortedBy, h]
    · simp only [insertSortedBy, h, Bool.false_eq_true, if_false]
      exact ((insertSortedBy_perm le x ys).cons y).trans (List.Perm.swap x y ys)

theorem stableSortBy_perm {α : Type} (le : α → α → Bool) :
    ∀ l : List α, (stableSortBy le l).Perm l
  | [] => List.Perm.refl _
  | x :: xs =>
    (insertSortedBy_perm le x (stableSortBy le xs)).trans
      ((stableSortBy_perm le xs).cons x)

theorem pairwise_insertSortedBy {α : Type} {le : α → α → Bool}
    (htot : ∀ a b, le a b = true ∨ le b a = true)
    (htrans : ∀ a b c, le a b = true → le b c = true → le a c = true) (x : α) :
    ∀ {l : List α}, l.Pairwise (fun a b => le a b = true) →
      (insertSortedBy le x l).Pairwise (fun a b => le a b = true) := by
  intro l
  induction l with
  | nil => intro _; simp [insertSortedBy]
  | cons y ys ih =>
    intro hp
    rcases List.pairwise_cons.mp hp with ⟨hy, hys⟩
    by_cases h : le x y
    · simp only [insertSortedBy, h, if_true]
      refine List.pairwise_cons.mpr ⟨?_, hp⟩
      intro z hz
      rcases List.mem_cons.mp hz with hz1 | hz2
      · subst hz1; exact h
      · exact htrans x y z h (hy z hz2)
    · simp only [insertSortedBy, h, Bool.false_eq_true, if_false]
      refine List.pairwise_cons.mpr ⟨?_, ih hys⟩
      intro z hz
      rcases List.mem_cons.mp ((insertSortedBy_perm le x ys).mem_iff.mp hz)
        with hz1 | hz2
      · rcases htot x y with hxy | hyx
        · exact absurd hxy h
        · exact hz1 ▸ hyx
      · exact hy z hz2

theorem pairwise_stableSortBy {α : Type} {le : α → α → Bool}
    (htot : ∀ a b, le a b = true ∨ le b a = true)
    (htrans : ∀ a b c, le a b = true → le b c = true → le a c = true) :
    ∀ l : List α, (stableSortBy le l).Pairwise (fun a b => le a b = true)
  | [] => List.Pairwise.nil
  | x :: xs =>
    pairwise_insertSortedBy htot htrans x (pairwise_stableSortBy htot htrans xs)

/-- The time-window penalty loop counts `0.05` per tight-window stop. -/
theorem timeWindowPenaltyGo_eq :
    ∀ (wps : List RouteWaypoint) (acc : ℚ),
      timeWindowPenaltyGo acc wps =
        acc + 0.05 * ((wps.filter (fun w =>
          (w.type == "pickup" || w.type == "dropoff")
            && decide (w.time_window_end - w.time_window_start < 10))).length : ℚ)
  | [], acc => by simp [timeWindowPenaltyGo]
  | w :: ws, acc => by
    cases h : (w.type == "pickup" || w.type == "dropoff")
        && decide (w.time_window_end - w.time_window_start < 10) with
    | true =>
      simp only [timeWindowPenaltyGo, h, if_true, List.filter_cons, List.length_cons]
      rw [timeWindowPenaltyGo_eq ws]
      push_cast
      ring
    | false =>
      simp only [timeWindowPenaltyGo, h, Bool.false_eq_true, if_false, List.filter_cons]
      exact timeWindowPenaltyGo_eq ws acc

/-! ### Claims -/

/-- C3: for every driver id and driver location, `optimize_pickup_route`
called with an empty pending-requests list returns a route with an empty
waypoint list, total distance 0, total time 0, efficiency score 1.0,
confidence score 1.0, and strategy `'no_requests'`. -/
theorem C3_empty_requests (env : Env) (zones : ZoneTable) (driver_id : String)
    (driver_lat driver_lng now : ℚ) :
    (optimize_pickup_route env zones driver_id driver_lat driver_lng [] now).waypoints = []
    ∧ (optimize_pickup_route env zones driver_id driver_lat driver_lng [] now).total_distance_miles = 0
    ∧ (optimize_pickup_route env zones driver_id driver_lat driver_lng [] now).total_time_minutes = 0
    ∧ (optimize_pickup_route env zones driver_id driver_lat driver_lng [] now).route_efficiency_score = 1
    ∧ (optimize_pickup_route env zones driver_id driver_lat driver_lng [] now).confidence_score = 1
    ∧ (optimize_pickup_route env zones driver_id driver_lat driver_lng [] now).optimization_strategy = "no_requests" :=
  ⟨rfl, rfl, rfl, rfl, rfl, rfl⟩

/-- C4, counterexample: at distance 20 with no delays the code returns 0.5
(its base confidence is floored at 0.5), while the claimed formula
`clip(1 - d/20, 0.3, 0.95)` minus penalties gives 0.3. -/
theorem C4_counterexample :
    calculate_eta_confidence 20 0 0 ≠ etaConfidenceClaim 20 0 0 := by
  norm_num [calculate_eta_confidence, etaConfidenceClaim]

/-- C4, amended: the ETA confidence equals `max(0.5, 1 - distance/20)` (the
base confidence is floored at 0.5 and not pre-capped) reduced by
`min(0.3, trafficDelay/20)` and by `min(0.2, weatherDelay/10)`, with the
final result clipped to `[0.3, 0.95]` (a cap as well as a floor); it always
lies in `[0.3, 0.95]`. -/
theorem C4_eta_confidence (d t w : ℚ) :
    calculate_eta_confidence d t w =
      clip (max 0.5 (1 - d / 20) - min 0.3 (t / 20) - min 0.2 (w / 10)) 0.3 0.95
    ∧ 0.3 ≤ calculate_eta_confidence d t w
    ∧ calculate_eta_confidence d t w ≤ 0.95 := by
  refine ⟨rfl, le_max_left _ _, ?_⟩
  calc calculate_eta_confidence d t w
      ≤ max (0.3 : ℚ) 0.95 := by
        unfold calculate_eta_confidence
        exact max_le_max (le_refl _) (min_le_left _ _)
    _ = 0.95 := by norm_num

/-- C5, counterexample: for five requests and no waypoints the code returns
0.5 (the complexity penalty is capped at 0.3) while the claimed formula
`0.8 - 0.1*(5-1)` clipped gives 0.4. -/
theorem C5_counterexample :
    calculate_route_confidence [] 5 ≠ routeConfidenceClaim [] 5 := by
  norm_num [calculate_route_confidence, routeConfidenceClaim, timeWindowPenaltyGo]

/-- C5, amended: the route confidence equals `0.8` minus a complexity penalty
of `0.1 * (N - 1)` capped at `0.3`, minus `0.05` for each pickup/dropoff
waypoint whose time window is narrower than 10 minutes, clipped to
`[0.3, 0.95]`. -/
theorem C5_route_confidence (waypoints : List RouteWaypoint) (num_requests : ℕ) :
    calculate_route_confidence waypoints num_requests =
      clip (0.8 - min 0.3 (0.1 * ((num_requests : ℚ) - 1))
          - 0.05 * ((waypoints.filter (fun w =>
              (w.type == "pickup" || w.type == "dropoff")
                && decide (w.time_window_end - w.time_window_start < 10))).length : ℚ))
        0.3 0.95 := by
  unfold calculate_route_confidence clip
  rw [timeWindowPenaltyGo_eq, zero_add, mul_comm (0.1 : ℚ)]

/-- The `_classify_location_to_zone` loop, once its minimum is initialised,
returns the first zone of the remaining table that strictly improves on the
running minimum and on everything after it; `firstNearestZone` packages that
zone. -/
theorem classifyGo_eq (env : Env) (lat lng : ℚ) :
    ∀ (zs : ZoneTable) (best : String) (m : ℚ),
      classifyGo env lat lng best (some m) zs =
        (firstNearestZone env lat lng zs).elim best
          (fun w => if env.dist lat lng w.2.lat w.2.lng < m then w.1 else best)
  | [], best, m => rfl
  | z :: zs, best, m => by
    have hcons : classifyGo env lat lng best (some m) (z :: zs) =
        if env.dist lat lng z.2.lat z.2.lng < m
        then classifyGo env lat lng z.1 (some (env.dist lat lng z.2.lat z.2.lng)) zs
        else classifyGo env lat lng best (some m) zs := rfl
    rw [hcons, classifyGo_eq env lat lng zs, classifyGo_eq env lat lng zs]
    cases hfz : firstNearestZone env lat lng zs with
    | none => simp only [firstNearestZone, hfz, Option.elim]
    | some w =>
      simp only [firstNearestZone, hfz, Option.elim]
      by_cases hzw : env.dist lat lng z.2.lat z.2.lng
          ≤ env.dist lat lng w.2.lat w.2.lng
      · rw [if_pos hzw]
        simp only [Option.elim]
        by_cases hdm : env.dist lat lng z.2.lat z.2.lng < m
        · rw [if_pos hdm, if_pos hdm, if_neg (by linarith)]
        · rw [if_neg hdm, if_neg hdm, if_neg (by linarith)]
      · rw [if_neg hzw]
        simp only [Option.elim]
        by_cases hdm : env.dist lat lng z.2.lat z.2.lng < m
        · rw [if_pos hdm, if_pos (by linarith), if_pos (by linarith)]
        · rw [if_neg hdm]

/-- C6, counterexample: with an empty zone table the code falls back to the
default zone name `'residential'`, not to a sentinel `'unclassified'` zone
(and the function takes no threshold at all). -/
theorem C6_counterexample :
    classify_location_to_zone envPlain [] 0 0 = "residential" ∧
      classify_location_to_zone envPlain [] 0 0 ≠ "unclassified" :=
  ⟨rfl, by decide⟩

/-- C6, amended: zone classification returns the name of the zone whose
centroid is nearest to the point, ties broken by iteration order of the zone
table (the first zone with the minimal distance wins, because only a strictly
smaller distance replaces the running minimum); there is no threshold
parameter, and for an empty zone table the default `'residential'` is
returned rather than an `'unclassified'` sentinel. -/
theorem C6_classify_zone (env : Env) (zones : ZoneTable) (lat lng : ℚ) :
    classify_location_to_zone env zones lat lng =
      ((firstNearestZone env lat lng zones).map Prod.fst).getD "residential" := by
  cases zones with
  | nil => rfl
  | cons z zs =>
    have hstep : classify_location_to_zone env (z :: zs) lat lng =
        classifyGo env lat lng z.1
          (some (env.dist lat lng z.2.lat z.2.lng)) zs := rfl
    rw [hstep, classifyGo_eq]
    cases hfz : firstNearestZone env lat lng zs with
    | none => simp [firstNearestZone, hfz]
    | some w =>
      simp only [firstNearestZone, hfz, Option.elim]
      by_cases hzw : env.dist lat lng z.2.lat z.2.lng
          ≤ env.dist lat lng w.2.lat w.2.lng
      · rw [if_pos hzw, if_neg (by linarith)]
        simp
      · rw [if_neg hzw, if_pos (by linarith)]
        simp

/-- The accumulation loop of `_calculate_route_traffic_impact` computes the
mean of the multipliers of the waypoints that have a signal, seeded by the
accumulator. -/
theorem trafficImpactGo_eq (env : Env) (zones : ZoneTable) :
    ∀ (wps : List RouteWaypoint) (total : ℚ) (count : ℕ),
      trafficImpactGo env zones total count wps =
        if 0 < count + (wps.filterMap (trafficImpactOfWaypoint env zones)).length
        then (total + (wps.filterMap (trafficImpactOfWaypoint env zones)).sum)
          / ((count : ℚ) + (wps.filterMap (trafficImpactOfWaypoint env zones)).length)
        else 1
  | [], total, count => by
    simp [trafficImpactGo]
  | w :: ws, total, count => by
    cases hv : trafficImpactOfWaypoint env zones w with
    | none =>
      have hrec : trafficImpactGo env zones total count (w :: ws) =
          trafficImpactGo env zones total count ws := by
        simp only [trafficImpactGo, hv]
      rw [hrec, trafficImpactGo_eq env zones ws, List.filterMap_cons_none hv]
    | some v =>
      have hrec : trafficImpactGo env zones total count (w :: ws) =
          trafficImpactGo env zones (total + v) (count + 1) ws := by
        simp only [trafficImpactGo, hv]
      rw [hrec, trafficImpactGo_eq env zones ws, List.filterMap_cons_some hv]
      simp only [List.length_cons, List.sum_cons]
      by_cases hpos :
          0 < count + 1 + (ws.filterMap (trafficImpactOfWaypoint env zones)).length
      · rw [if_pos hpos, if_pos (by omega)]
        push_cast
        ring_nf
      · omega

/-- The accumulation loop of `_calculate_route_weather_impact`, same shape. -/
theorem weatherImpactGo_eq (env : Env) :
    ∀ (wps : List RouteWaypoint) (total : ℚ) (count : ℕ),
      weatherImpactGo env total count wps =
        if 0 < count + (wps.filterMap (weatherImpactOfWaypoint env)).length
        then (total + (wps.filterMap (weatherImpactOfWaypoint env)).sum)
          / ((count : ℚ) + (wps.filterMap (weatherImpactOfWaypoint env)).length)
        else 1
  | [], total, count => by
    simp [weatherImpactGo]
  | w :: ws, total, count => by
    cases hv : weatherImpactOfWaypoint env w with
    | none =>
      have hrec : weatherImpactGo env total count (w :: ws) =
          weatherImpactGo env total count ws := by
        simp only [weatherImpactGo, hv]
      rw [hrec, weatherImpactGo_eq env ws, List.filterMap_cons_none hv]
    | some v =>
      have hrec : weatherImpactGo env total count (w :: ws) =
          weatherImpactGo env (total + v) (count + 1) ws := by
        simp only [weatherImpactGo, hv]
      rw [hrec, weatherImpactGo_eq env ws, List.filterMap_cons_some hv]
      simp only [List.length_cons, List.sum_cons]
      by_cases hpos :
          0 < count + 1 + (ws.filterMap (weatherImpactOfWaypoint env)).length
      · rw [if_pos hpos, if_pos (by omega)]
        push_cast
        ring_nf
      · omega

/-- C7, counterexample: over two waypoints of which only the first has a
traffic signal (30 delay minutes, multiplier 2.0), the code averages over the
signalled waypoints only and returns 2.0, while the claimed mean-with-default
gives (2.0 + 1.0)/2 = 1.5. -/
theorem C7_counterexample :
    calculate_route_traffic_impact envTwoZones zonesTwo [wpNearA, wpNearB]
      ≠ routeTrafficImpactClaim envTwoZones zonesTwo [wpNearA, wpNearB] := by
  simp [calculate_route_traffic_impact, routeTrafficImpactClaim,
    trafficImpactGo, trafficImpactOfWaypoint, classify_location_to_zone,
    classifyGo, envTwoZones, zonesTwo, wpNearA, wpNearB, sqDist]
  norm_num

/-- C7, amended: each route-level impact is the arithmetic mean of the
per-waypoint multipliers (`1 + delay/30` for traffic, the weather table value
with unknown condition strings defaulting to `1.0`) over the waypoints for
which a signal is available; waypoints with no signal are excluded from the
mean (they do not contribute a default `1.0`), and when no waypoint has a
signal the impact is `1.0`. -/
theorem C7_route_impacts (env : Env) (zones : ZoneTable) (wps : List RouteWaypoint) :
    (calculate_route_traffic_impact env zones wps =
      if (wps.filterMap (trafficImpactOfWaypoint env zones)).length = 0 then 1
      else (wps.filterMap (trafficImpactOfWaypoint env zones)).sum
        / ((wps.filterMap (trafficImpactOfWaypoint env zones)).length : ℚ))
    ∧ (calculate_route_weather_impact env wps =
      if (wps.filterMap (weatherImpactOfWaypoint env)).length = 0 then 1
      else (wps.filterMap (weatherImpactOfWaypoint env)).sum
        / ((wps.filterMap (weatherImpactOfWaypoint env)).length : ℚ)) := by
  constructor
  · rw [calculate_route_traffic_impact]
    by_cases hw : wps = []
    · subst hw
      simp
    · rw [if_neg hw, trafficImpactGo_eq]
      rcases Nat.eq_zero_or_pos (wps.filterMap (trafficImpactOfWaypoint env zones)).length
        with hn | hn
      · simp [hn]
      · rw [if_pos (by omega), if_neg (by omega)]
        simp
  · rw [calculate_route_weather_impact]
    by_cases hw : wps = []
    · subst hw
      simp
    · rw [if_neg hw, weatherImpactGo_eq]
      rcases Nat.eq_zero_or_pos (wps.filterMap (weatherImpactOfWaypoint env)).length
        with hn | hn
      · simp [hn]
      · rw [if_pos (by omega), if_neg (by omega)]
        simp

/-- C9: with fewer than 2 requests `find_pool_ride_matches` returns the empty
list; otherwise every returned match has compatibility at least 0.6, the list
is sorted in descending order of compatibility, and its length is at most
`max_matches`. -/
theorem C9_pool_matches (now : ℚ) (pending_requests : List RideRequest)
    (max_matches : ℕ) :
    (pending_requests.length < 2 →
      find_pool_ride_matches now pending_requests max_matches = [])
    ∧ ((find_pool_ride_matches now pending_requests max_matches).all
        (fun m => decide ((0.6 : ℚ) ≤ m.compatibility_score)) = true)
    ∧ (find_pool_ride_matches now pending_requests max_matches).Pairwise
        (fun a b => b.compatibility_score ≤ a.compatibility_score)
    ∧ (find_pool_ride_matches now pending_requests max_matches).length
        ≤ max_matches := by
  unfold find_pool_ride_matches
  by_cases hlen : pending_requests.length < 2
  · simp [hlen]
  · rw [if_neg hlen]
    refine ⟨fun h => absurd h hlen, ?_⟩
    cases hcore : poolMatchesCore now pending_requests with
    | error e => simp
    | ok ms =>
      have hms : ∀ m ∈ ms, decide ((0.6 : ℚ) ≤ m.compatibility_score) = true := by
        intro m hm
        rcases hmap : ((poolSizes pending_requests.length).flatMap
            (fun s => generate_passenger_combinations pending_requests s)).mapM
            (evaluate_pool_compatibility now) with e | evaluated
        · rw [poolMatchesCore, hmap] at hcore
          exact absurd hcore (by simp [Bind.bind, Except.bind])
        · rw [poolMatchesCore, hmap] at hcore
          simp only [Bind.bind, Except.bind, pure, Except.pure, Except.ok.injEq] at hcore
          subst hcore
          exact (List.mem_filter.mp hm).2
      have htot : ∀ a b : PoolRideMatch,
          decide (b.compatibility_score ≤ a.compatibility_score) = true
          ∨ decide (a.compatibility_score ≤ b.compatibility_score) = true := by
        intro a b
        rcases le_total b.compatibility_score a.compatibility_score with h | h
        · exact Or.inl (decide_eq_true h)
        · exact Or.inr (decide_eq_true h)
      have htrans : ∀ a b c : PoolRideMatch,
          decide (b.compatibility_score ≤ a.compatibility_score) = true →
          decide (c.compatibility_score ≤ b.compatibility_score) = true →
          decide (c.compatibility_score ≤ a.compatibility_score) = true := by
        intro a b c hab hbc
        exact decide_eq_true (le_trans (of_decide_eq_true hbc) (of_decide_eq_true hab))
      refine ⟨?_, ?_, ?_⟩
      · rw [List.all_eq_true]
        intro m hm
        exact hms m
          (((stableSortBy_perm _ ms).mem_iff).mp (List.mem_of_mem_take hm))
      · refine List.Pairwise.sublist (List.take_sublist _ _) ?_
        refine List.Pairwise.imp (fun h => of_decide_eq_true h) ?_
        exact pairwise_stableSortBy htot htrans ms
      · exact List.length_take_le _ _


/-- A lookup with default 0 in a table of nonnegative values is nonnegative. -/
theorem lookup_getD_nonneg :
    ∀ l : List (String × ℚ), (∀ p ∈ l, 0 ≤ p.2) → ∀ s : String,
      0 ≤ ((l.lookup s).getD 0)
  | [], _, s => by simp
  | (k, v) :: ps, h, s => by
    simp only [List.lookup]
    cases hk : s == k with
    | true =>
      simp only [Option.getD_some]
      exact h (k, v) (List.mem_cons_self (k, v) ps)
    | false =>
      exact lookup_getD_nonneg ps (fun p hp => h p (List.mem_cons_of_mem _ hp)) s

/-- The weather delay is always nonnegative (every table entry is). -/
theorem get_weather_delay_nonneg (env : Env) (a b c d : ℚ) :
    0 ≤ get_weather_delay env a b c d := by
  rw [get_weather_delay]
  cases env.getWeatherData ((a + c) / 2) ((b + d) / 2) with
  | none => exact le_refl 0
  | some wd =>
    refine lookup_getD_nonneg weather_delays ?_ wd.condition.toLower
    intro p hp
    fin_cases hp <;> norm_num

/-- The traffic delay is nonnegative whenever the provider's delay minutes
are (the time-of-day multiplier is positive). -/
theorem get_traffic_delay_nonneg (env : Env) (zones : ZoneTable) (a b c d : ℚ)
    (hour : ℕ)
    (ht : ∀ z td, env.getTrafficData z = some td → 0 ≤ td.delay_minutes) :
    0 ≤ get_traffic_delay env zones a b c d hour := by
  rw [get_traffic_delay]
  cases htd : env.getTrafficData (classify_location_to_zone env zones a b) with
  | none => exact le_refl 0
  | some td =>
    refine mul_nonneg (ht _ td htd) ?_
    split_ifs <;> norm_num

/-- The base travel time is nonnegative for a nonnegative distance. -/
theorem calculate_base_travel_time_nonneg (env : Env) (zones : ZoneTable)
    (a b c d dist : ℚ) (hd : 0 ≤ dist) :
    0 ≤ calculate_base_travel_time env zones a b c d dist := by
  rw [calculate_base_travel_time]
  split_ifs with h
  · exact mul_nonneg hd (by norm_num)
  · exact le_trans zero_le_one (le_max_left 1 _)

/-- Interval facts of the normal ETA path, in terms of the three summands. -/
theorem etaIntervalFacts (b t w : ℚ) (hb : 0 ≤ b) (ht : 0 ≤ t) (hw : 0 ≤ w) :
    max (b * 0.5) ((b + t + w) - (b + t + w) * 0.2) ≤ b + t + w
    ∧ b + t + w ≤ (b + t + w) + (b + t + w) * 0.2
    ∧ (b + t + w) + (b + t + w) * 0.2 = (b + t + w) * 1.2
    ∧ max (b * 0.5) ((b + t + w) - (b + t + w) * 0.2)
        = max (b * 0.5) ((b + t + w) * 0.8) := by
  refine ⟨max_le (by linarith) (by linarith), by linarith, by ring, ?_⟩
  have : (b + t + w) - (b + t + w) * 0.2 = (b + t + w) * 0.8 := by ring
  rw [this]

/-- C2, counterexample: on the failure-fallback path the upper confidence
bound is 1.5 times the estimate, not the claimed estimate + 20%. -/
theorem C2_counterexample :
    (create_fallback_eta envPos 0 0 1 1 0).confidence_interval_max
      ≠ (create_fallback_eta envPos 0 0 1 1 0).estimated_time_minutes * 1.2 := by
  norm_num [create_fallback_eta, envPos, sqDist]

/-- C2, amended: on both the normal path and the failure-fallback path,
`confidence_interval_min ≤ estimated_time_minutes ≤ confidence_interval_max`
holds and `estimated_time_minutes` equals
`base_time_minutes + traffic_delay_minutes + weather_delay_minutes` exactly
(provided distances and provider delay minutes are nonnegative, as for the
real haversine distance); on the normal path the interval is the estimate
± 20% with the lower bound floored at `base × 0.5`, while on the fallback
path the interval is `[0.8 × estimate, 1.5 × estimate]`. -/
theorem C2_eta_prediction (env : Env) (zones : ZoneTable)
    (from_lat from_lng to_lat to_lng : ℚ) (departure_hour : ℕ) (now : ℚ)
    (hdist : ∀ a b c d, 0 ≤ env.dist a b c d)
    (htraffic : ∀ z td, env.getTrafficData z = some td → 0 ≤ td.delay_minutes) :
    ((predict_eta env zones from_lat from_lng to_lat to_lng departure_hour now).confidence_interval_min
      ≤ (predict_eta env zones from_lat from_lng to_lat to_lng departure_hour now).estimated_time_minutes)
    ∧ ((predict_eta env zones from_lat from_lng to_lat to_lng departure_hour now).estimated_time_minutes
      ≤ (predict_eta env zones from_lat from_lng to_lat to_lng departure_hour now).confidence_interval_max)
    ∧ ((predict_eta env zones from_lat from_lng to_lat to_lng departure_hour now).estimated_time_minutes
      = (predict_eta env zones from_lat from_lng to_lat to_lng departure_hour now).base_time_minutes
        + (predict_eta env zones from_lat from_lng to_lat to_lng departure_hour now).traffic_delay_minutes
        + (predict_eta env zones from_lat from_lng to_lat to_lng departure_hour now).weather_delay_minutes)
    ∧ ((predict_eta env zones from_lat from_lng to_lat to_lng departure_hour now).confidence_interval_max
      = (predict_eta env zones from_lat from_lng to_lat to_lng departure_hour now).estimated_time_minutes * 1.2)
    ∧ ((predict_eta env zones from_lat from_lng to_lat to_lng departure_hour now).confidence_interval_min
      = max ((predict_eta env zones from_lat from_lng to_lat to_lng departure_hour now).base_time_minutes * 0.5)
            ((predict_eta env zones from_lat from_lng to_lat to_lng departure_hour now).estimated_time_minutes * 0.8))
    ∧ ((create_fallback_eta env from_lat from_lng to_lat to_lng now).confidence_interval_min
      ≤ (create_fallback_eta env from_lat from_lng to_lat to_lng now).estimated_time_minutes)
    ∧ ((create_fallback_eta env from_lat from_lng to_lat to_lng now).estimated_time_minutes
      ≤ (create_fallback_eta env from_lat from_lng to_lat to_lng now).confidence_interval_max)
    ∧ ((create_fallback_eta env from_lat from_lng to_lat to_lng now).estimated_time_minutes
      = (create_fallback_eta env from_lat from_lng to_lat to_lng now).base_time_minutes
        + (create_fallback_eta env from_lat from_lng to_lat to_lng now).traffic_delay_minutes
        + (create_fallback_eta env from_lat from_lng to_lat to_lng now).weather_delay_minutes)
    ∧ ((create_fallback_eta env from_lat from_lng to_lat to_lng now).confidence_interval_min
      = (create_fallback_eta env from_lat from_lng to_lat to_lng now).estimated_time_minutes * 0.8)
    ∧ ((create_fallback_eta env from_lat from_lng to_lat to_lng now).confidence_interval_max
      = (create_fallback_eta env from_lat from_lng to_lat to_lng now).estimated_time_minutes * 1.5) := by
  have hw := get_weather_delay_nonneg env from_lat from_lng to_lat to_lng
  have ht := get_traffic_delay_nonneg env zones from_lat from_lng to_lat to_lng
    departure_hour htraffic
  have hb := calculate_base_travel_time_nonneg env zones from_lat from_lng to_lat
    to_lng (env.dist from_lat from_lng to_lat to_lng)
    (hdist from_lat from_lng to_lat to_lng)
  have hfacts := etaIntervalFacts
    (calculate_base_travel_time env zones from_lat from_lng to_lat to_lng
      (env.dist from_lat from_lng to_lat to_lng))
    (get_traffic_delay env zones from_lat from_lng to_lat to_lng departure_hour)
    (get_weather_delay env from_lat from_lng to_lat to_lng) hb ht hw
  have hq : (0 : ℚ) ≤ env.dist from_lat from_lng to_lat to_lng * 2.5 :=
    mul_nonneg (hdist from_lat from_lng to_lat to_lng) (by norm_num)
  exact ⟨hfacts.1, hfacts.2.1, rfl, hfacts.2.2.1, hfacts.2.2.2,
    by show env.dist from_lat from_lng to_lat to_lng * 2.5 * 0.8
        ≤ env.dist from_lat from_lng to_lat to_lng * 2.5; linarith,
    by show env.dist from_lat from_lng to_lat to_lng * 2.5
        ≤ env.dist from_lat from_lng to_lat to_lng * 2.5 * 1.5; linarith,
    by show env.dist from_lat from_lng to_lat to_lng * 2.5
        = env.dist from_lat from_lng to_lat to_lng * 2.5 + 0 + 0; ring,
    rfl, rfl⟩

/-- C2, witness: the amended theorem applied to a concrete environment with
nonnegative distances and delays. -/
theorem C2_witness :
    (predict_eta envPos zonesOne 0 0 1 1 8 0).confidence_interval_min
      ≤ (predict_eta envPos zonesOne 0 0 1 1 8 0).estimated_time_minutes := by
  refine (C2_eta_prediction envPos zonesOne 0 0 1 1 8 0 ?_ ?_).1
  · intro a b c d
    have h1 := mul_self_nonneg (a - c)
    have h2 := mul_self_nonneg (b - d)
    simp only [envPos, sqDist]
    linarith
  · intro z td h
    simp only [envPos] at h
    injection h with h1
    rw [← h1]
    norm_num



/-- C8: evaluation at the failing input.  With two pickups and capacity 1 the
code keeps the raw-priority-2 waypoint (retention happens in
`_validate_route_constraints`, which sorts by `priority` alone; the
`priority*10 - hoursUntilDeadline` trim that `optimize_multi_stop_route`
computes is assigned to a variable that is never read), although the claimed
priority score prefers the other pickup (`-80 < 10`). -/
theorem C8_capacity_trim_eval :
    optimize_multi_stop_route envPlain 0 [wpHighPrioFarDeadline, wpLowPrioUrgent] 1
      = [wpHighPrioFarDeadline]
    ∧ priorityScore 0 wpHighPrioFarDeadline < priorityScore 0 wpLowPrioUrgent := by
  constructor
  · simp [optimize_multi_stop_route, validate_route_constraints, tsp_optimization,
      nearest_neighbor_sequence, nnGo, findNearestGo, stableSortBy, insertSortedBy,
      wpHighPrioFarDeadline, wpLowPrioUrgent, envPlain, sqDist, List.contains]
  · norm_num [priorityScore, wpHighPrioFarDeadline, wpLowPrioUrgent]


/-- Any successfully converted request yields a `'pickup'` waypoint. -/
theorem waypointOfRequest_type (now : ℚ) (req : RideRequest) (w : RouteWaypoint)
    (h : waypointOfRequest now req = .ok w) : w.type = "pickup" := by
  rw [waypointOfRequest] at h
  split at h
  · injection h with h1
    rw [← h1]
  · cases h

/-- A successful `_create_waypoints_from_requests` yields one pickup waypoint
per request. -/
theorem create_waypoints_ok_shape (now : ℚ) :
    ∀ (reqs : List RideRequest) (wps : List RouteWaypoint),
      create_waypoints_from_requests now reqs = .ok wps →
      wps.length = reqs.length ∧ ∀ w ∈ wps, w.type = "pickup"
  | [], wps, h => by
    rw [create_waypoints_from_requests] at h
    injection h with h1
    rw [← h1]
    simp
  | req :: rest, wps, h => by
    rw [create_waypoints_from_requests] at h
    split at h
    case _ w0 ws0 hw hrest =>
      injection h with h1
      rcases create_waypoints_ok_shape now rest ws0 hrest with ⟨hlen, htype⟩
      rw [← h1]
      refine ⟨by simp [hlen], ?_⟩
      intro w hw2
      rcases List.mem_cons.mp hw2 with rfl | hmem
      · exact waypointOfRequest_type now req w hw
      · exact htype w hmem
    case _ => cases h
    case _ => cases h

/-- The inner scan of the greedy loop returns one of the candidates. -/
theorem findNearestGo_mem (env : Env) (cur : RouteWaypoint) :
    ∀ (l : List RouteWaypoint) (best : RouteWaypoint),
      findNearestGo env cur best l ∈ best :: l
  | [], best => List.mem_cons_self best []
  | w :: ws, best => by
    rw [findNearestGo]
    split
    · have h := findNearestGo_mem env cur ws w
      exact List.mem_cons_of_mem best h
    · have h := findNearestGo_mem env cur ws best
      rcases List.mem_cons.mp h with heq | hmem
      · rw [heq]
        exact List.mem_cons_self best (w :: ws)
      · exact List.mem_cons_of_mem best (List.mem_cons_of_mem w hmem)

/-- With fuel equal to the number of remaining waypoints, the greedy loop
visits exactly the remaining waypoints (in some order). -/
theorem nnGo_perm (env : Env) :
    ∀ (n : ℕ) (l : List RouteWaypoint) (cur : RouteWaypoint), l.length = n →
      (nnGo env n cur l).Perm l := by
  intro n
  induction n with
  | zero =>
    intro l cur hl
    rw [List.length_eq_zero] at hl
    subst hl
    simp [nnGo]
  | succ n ih =>
    intro l cur hl
    cases l with
    | nil => cases hl
    | cons w ws =>
      rw [nnGo]
      have hmem : findNearestGo env cur w ws ∈ w :: ws := findNearestGo_mem env cur ws w
      have hlen : ((w :: ws).erase (findNearestGo env cur w ws)).length = n := by
        rw [List.length_erase_of_mem hmem]
        simp only [List.length_cons] at hl ⊢
        omega
      have hperm := ih _ (findNearestGo env cur w ws) hlen
      exact ((hperm.cons _).trans (List.perm_cons_erase hmem).symm)

/-- The permutation fold of `_optimize_small_route` only ever stores a
sequence of the form `start :: p` with `p` a permutation of the waypoints. -/
theorem smallRouteFold_shape (env : Env) (zones : ZoneTable)
    (dw : RouteWaypoint) (wps : List RouteWaypoint) :
    ∀ (ps : List (List RouteWaypoint)) (acc : Option (List RouteWaypoint × ℚ)),
      (∀ q ∈ ps, q.Perm wps) →
      (acc = none ∨ ∃ p t, p.Perm wps ∧ acc = some (dw :: p, t)) →
      (ps.foldl (smallRouteStep env zones dw) acc = none
        ∨ ∃ p t, p.Perm wps ∧
            ps.foldl (smallRouteStep env zones dw) acc = some (dw :: p, t))
  | [], acc, _, hacc => hacc
  | q :: ps, acc, hq, hacc => by
    rw [List.foldl_cons]
    refine smallRouteFold_shape env zones dw wps ps (smallRouteStep env zones dw acc q)
      (fun q2 hq2 => hq q2 (List.mem_cons_of_mem q hq2)) ?_
    have hqperm : q.Perm wps := hq q (List.mem_cons_self q ps)
    rcases hacc with rfl | ⟨p, t, hp, rfl⟩
    · exact Or.inr ⟨q, _, hqperm, rfl⟩
    · rw [smallRouteStep]
      split
      · exact Or.inr ⟨q, _, hqperm, rfl⟩
      · exact Or.inr ⟨p, t, hp, rfl⟩

/-- `_optimize_small_route` returns the start point followed by a permutation
of the waypoints. -/
theorem optimize_small_route_shape (env : Env) (zones : ZoneTable)
    (dw : RouteWaypoint) (wps : List RouteWaypoint) :
    ∃ p : List RouteWaypoint,
      optimize_small_route env zones dw wps = dw :: p ∧ p.Perm wps := by
  rw [optimize_small_route]
  rcases smallRouteFold_shape env zones dw wps wps.permutations none
      (fun q hq => List.mem_permutations.mp hq) (Or.inl rfl) with hnone | ⟨p, t, hp, hsome⟩
  · rw [hnone]
    exact ⟨wps, rfl, List.Perm.refl wps⟩
  · rw [hsome]
    exact ⟨p, rfl, hp⟩

/-- Whatever the tier, the sequenced route is the driver start point followed
by a permutation of the waypoints. -/
theorem sequencedRoute_shape (env : Env) (zones : ZoneTable)
    (dw : RouteWaypoint) (wps : List RouteWaypoint) :
    ∃ p : List RouteWaypoint,
      (sequencedRoute env zones dw wps).1 = dw :: p ∧ p.Perm wps := by
  rw [sequencedRoute]
  split_ifs with h1 h2
  · exact ⟨wps, rfl, List.Perm.refl wps⟩
  · exact optimize_small_route_shape env zones dw wps
  · exact ⟨nnGo env wps.length dw wps, rfl, nnGo_perm env wps.length wps dw rfl⟩

/-- The route confidence is always clamped into `[0.3, 0.95]`. -/
theorem calculate_route_confidence_bounds (wps : List RouteWaypoint) (n : ℕ) :
    0.3 ≤ calculate_route_confidence wps n
      ∧ calculate_route_confidence wps n ≤ 0.95 := by
  unfold calculate_route_confidence
  refine ⟨le_max_left _ _, ?_⟩
  calc max (0.3 : ℚ) (min 0.95 (0.8 - min 0.3 ((↑n - 1) * 0.1) - timeWindowPenaltyGo 0 wps))
      ≤ max (0.3 : ℚ) 0.95 := max_le_max (le_refl _) (min_le_left _ _)
    _ = 0.95 := by norm_num

/-- The route efficiency is always clamped into `[0, 1]`. -/
theorem calculate_route_efficiency_bounds (env : Env) (wps : List RouteWaypoint)
    (d t : ℚ) :
    0 ≤ calculate_route_efficiency env wps d t
      ∧ calculate_route_efficiency env wps d t ≤ 1 := by
  simp only [calculate_route_efficiency]
  by_cases h1 : wps = [] ∨ d ≤ 0 ∨ t ≤ 0
  · rw [if_pos h1]
    norm_num
  · rw [if_neg h1]
    by_cases h2 : (wps.filter fun w => w.type == "pickup" || w.type == "dropoff").length = 0
    · rw [if_pos h2]
      norm_num
    · rw [if_neg h2]
      refine ⟨le_max_left _ _, ?_⟩
      exact le_trans (max_le_max (le_refl (0 : ℚ)) (min_le_left 1 _)) (by norm_num)


/-- C10: on the non-fallback path, the returned route (driver start excluded)
has exactly one waypoint per request, every one of type `'pickup'`, and
`total_passengers` equal to the number of requests. -/
theorem C10_pickup_route_shape (env : Env) (zones : ZoneTable) (driver_id : String)
    (driver_lat driver_lng : ℚ) (pending_requests : List RideRequest) (now : ℚ)
    (r : OptimizedRoute)
    (h : optimizePickupRouteCore env zones driver_id driver_lat driver_lng
        pending_requests now = .ok r) :
    r.waypoints.length = pending_requests.length
    ∧ (r.waypoints.all fun w => w.type == "pickup") = true
    ∧ r.total_passengers = pending_requests.length := by
  rw [optimizePickupRouteCore] at h
  by_cases hemp : pending_requests.isEmpty
  · rw [if_pos hemp] at h
    injection h with h1
    rw [← h1]
    have hnil : pending_requests = [] := List.isEmpty_iff.mp hemp
    subst hnil
    exact ⟨rfl, rfl, rfl⟩
  · rw [if_neg hemp] at h
    rcases hw : create_waypoints_from_requests now pending_requests with e | wps
    · rw [hw] at h
      cases h
    · rw [hw] at h
      injection h with h1
      rcases create_waypoints_ok_shape now pending_requests wps hw with ⟨hlen, htype⟩
      rcases sequencedRoute_shape env zones
          (driverStartWaypoint driver_lat driver_lng now) wps with ⟨p, hseq, hperm⟩
      have hwp : r.waypoints = p := by
        rw [← h1]
        show ((sequencedRoute env zones
          (driverStartWaypoint driver_lat driver_lng now) wps).1).drop 1 = p
        rw [hseq]
        rfl
      refine ⟨?_, ?_, ?_⟩
      · rw [hwp, hperm.length_eq, hlen]
      · rw [hwp, List.all_eq_true]
        intro w hwmem
        have hty := htype w (hperm.mem_iff.mp hwmem)
        simp [hty]
      · rw [← h1]

/-- C10, witness: a concrete single good request goes down the non-fallback
path and yields one pickup waypoint and passenger count one. -/
theorem C10_witness :
    ∃ r, optimizePickupRouteCore envPlain zonesOne "drv" 0 0 [reqGoodA] 0
        = .ok r
      ∧ r.waypoints.length = 1 ∧ r.total_passengers = 1 := by
  refine ⟨_, rfl, ?_, ?_⟩
  · exact (C10_pickup_route_shape envPlain zonesOne "drv" 0 0 [reqGoodA] 0 _ rfl).1
  · exact (C10_pickup_route_shape envPlain zonesOne "drv" 0 0 [reqGoodA] 0 _ rfl).2.2

/-- C1: `optimize_pickup_route` is total (its Lean type is not `Except`, so
the caller never receives an exception) and always returns a well-formed
route; when the `try` body raises, the result is `_create_fallback_route`,
which yields the degraded route — the requests' waypoints in input order,
total time = total distance × 2.5, efficiency 0.6, confidence 0.5, strategy
`'fallback'` — when the waypoint conversion succeeds, and the empty emergency
route with confidence 0.3 and strategy `'emergency_fallback'` when even that
degraded path fails. -/
theorem C1_failure_policy (env : Env) (zones : ZoneTable) (driver_id : String)
    (driver_lat driver_lng : ℚ) (pending_requests : List RideRequest) (now : ℚ) :
    WellFormedRoute (optimize_pickup_route env zones driver_id driver_lat
        driver_lng pending_requests now)
    ∧ (∀ e, optimizePickupRouteCore env zones driver_id driver_lat driver_lng
          pending_requests now = .error e →
        optimize_pickup_route env zones driver_id driver_lat driver_lng
            pending_requests now
          = create_fallback_route env driver_id pending_requests now)
    ∧ (∀ wps, create_waypoints_from_requests now pending_requests = .ok wps →
        create_fallback_route env driver_id pending_requests now =
          { driver_id := driver_id, waypoints := wps,
            total_distance_miles :=
              if 1 < wps.length then calculate_route_distance env wps else 0,
            total_time_minutes :=
              (if 1 < wps.length then calculate_route_distance env wps else 0) * 2.5,
            total_passengers := pending_requests.length,
            route_efficiency_score := 0.6,
            estimated_earnings := (pending_requests.length : ℚ) * 12,
            traffic_impact := 1.2, weather_impact := 1.1,
            confidence_score := 0.5,
            optimization_strategy := "fallback", timestamp := now }
          ∧ wps.length = pending_requests.length)
    ∧ (create_waypoints_from_requests now pending_requests = .error () →
        create_fallback_route env driver_id pending_requests now =
          { driver_id := driver_id, waypoints := [], total_distance_miles := 0,
            total_time_minutes := 0, total_passengers := 0,
            route_efficiency_score := 0, estimated_earnings := 0,
            traffic_impact := 1, weather_impact := 1,
            confidence_score := 0.3,
            optimization_strategy := "emergency_fallback", timestamp := now }) := by
  refine ⟨?_, ?_, ?_, ?_⟩
  · rcases hcore : optimizePickupRouteCore env zones driver_id driver_lat
        driver_lng pending_requests now with e | r
    · have hopt : optimize_pickup_route env zones driver_id driver_lat driver_lng
          pending_requests now
          = create_fallback_route env driver_id pending_requests now := by
        rw [optimize_pickup_route, hcore]
      rw [hopt]
      rcases hw : create_waypoints_from_requests now pending_requests with e2 | wps
      · rw [create_fallback_route, hw]
        norm_num [WellFormedRoute]
      · rw [create_fallback_route, hw]
        norm_num [WellFormedRoute]
    · have hopt : optimize_pickup_route env zones driver_id driver_lat driver_lng
          pending_requests now = r := by
        rw [optimize_pickup_route, hcore]
      rw [hopt]
      rw [optimizePickupRouteCore] at hcore
      by_cases hemp : pending_requests.isEmpty
      · rw [if_pos hemp] at hcore
        injection hcore with h1
        rw [← h1]
        norm_num [WellFormedRoute]
      · rw [if_neg hemp] at hcore
        rcases hw : create_waypoints_from_requests now pending_requests with e2 | wps
        · rw [hw] at hcore
          cases hcore
        · rw [hw] at hcore
          injection hcore with h1
          rw [← h1]
          refine ⟨(calculate_route_confidence_bounds _ _).1,
            le_trans (calculate_route_confidence_bounds _ _).2 (by norm_num),
            (calculate_route_efficiency_bounds _ _ _ _).1,
            (calculate_route_efficiency_bounds _ _ _ _).2⟩
  · intro e h
    rw [optimize_pickup_route, h]
  · intro wps h
    rw [create_fallback_route, h]
    exact ⟨rfl, (create_waypoints_ok_shape now pending_requests wps h).1⟩
  · intro h
    rw [create_fallback_route, h]

/-- Sanity: a request dict with missing keys drives the `try` body of
`optimize_pickup_route` into its handler, the degraded path fails on the same
missing keys, and the emergency route is what the caller sees. -/
example : optimizePickupRouteCore envPlain zonesOne "drv" 0 0 [reqBad] 0
    = .error () := rfl

example : optimize_pickup_route envPlain zonesOne "drv" 0 0 [reqBad] 0
    = create_fallback_route envPlain "drv" [reqBad] 0 := rfl

example : (optimize_pickup_route envPlain zonesOne "drv" 0 0 [reqBad] 0).optimization_strategy
    = "emergency_fallback" := rfl

/-- Sanity: with convertible requests the degraded path itself succeeds and
carries the `'fallback'` tag. -/
example : (create_fallback_route envPlain "drv" [reqGoodA, reqGoodB] 0).optimization_strategy
    = "fallback" := rfl

end PiRideshare
